import Mathlib

/-!
Verification development for the CalorieSnap client application.

The definitions below are a shallow embedding of the camera capture
pipeline and the daily calorie ledger of the application component
(src/unnamed/part_001) together with the small pieces of persistent
state it keeps in browser local storage.  Machine numbers are modelled
as Nat / Int, JSON values reachable in the stored ledger cell as an
inductive type, and the asynchronous handlers as explicit state
transition functions on an application state record.
-/

namespace CalorieSnap

/-! ### String constants used by concrete scenarios -/

def defaultGoalText : String := "2000"

def trueText : String := "true"

def falseText : String := "false"

def dayMon : String := "Mon Oct 05 2026"

def dayTue : String := "Tue Oct 06 2026"

def badCaloriesText : String := "not a number"

def unknownFlagText : String := "dark"

def mealSummaryText : String := "meal"

/-! ### Capture pipeline: frame scaling

Embedding of the dimension computation in captureImage
(src/unnamed/part_001 lines 104-122, identically src/unnamed/part_000
lines 66-98): starting from the native video dimensions, the larger
side is clamped to maxDim and the other side is scaled by the same
factor.  Assigning the scaled value to canvas.width / canvas.height
truncates toward zero, which floor division on Nat models exactly
(the scaled side is a nonnegative quantity). -/

def maxDim : ℕ := 1024

def scaleDims (w h : ℕ) : ℕ × ℕ :=
  if h < w then
    if maxDim < w then (maxDim, h * maxDim / w) else (w, h)
  else
    if maxDim < h then (w * maxDim / h, maxDim) else (w, h)

/-! ### JSON values stored in the calorieLog cell -/

/-- JSON-like runtime values that the parsed calorieLog record can hold in
its date and calories fields.  jUndef models a field missing after
destructuring. -/
inductive Json where
  | jNum (n : ℤ)
  | jStr (s : String)
  | jBool (b : Bool)
  | jNull
  | jUndef
  deriving DecidableEq, Repr

/-- Contents of the calorieLog local storage cell: absent, present but not
parseable as JSON (JSON.parse throws), or a parsed record with a date
field and a calories field. -/
inductive CalorieLogCell where
  | absent
  | unparsable
  | record (date : Json) (calories : Json)
  deriving DecidableEq, Repr

/-- Embedding of loadConsumedCalories (src/unnamed/part_001 lines 10-19):
inside try/catch, read the calorieLog cell; if a record was parsed and
its date equals the key for today, return its calories value as stored;
in every other case (absent cell, parse failure, date mismatch) return 0.
The function is total: the catch clause means no input produces an error. -/
def loadConsumedCalories (today : String) : CalorieLogCell → Json
  | .absent => .jNum 0
  | .unparsable => .jNum 0
  | .record d c => if d = .jStr today then c else .jNum 0

/-- Numeric view of a JSON value, used where the component treats the
loaded value as a number.  On every cell the application itself writes
the calories field is a JSON number, and there this view is exact. -/
def asNumber : Json → ℤ
  | .jNum n => n
  | _ => 0

/-! ### Goal parsing -/

/-- Accumulate the leading decimal digits of a character list; none when
no digit was read. -/
def digitsVal : List Char → Option ℕ → Option ℕ
  | [], acc => acc
  | c :: cs, acc =>
      if c.isDigit then digitsVal cs (some ((acc.getD 0) * 10 + (c.toNat - 48)))
      else acc

/-- Embedding of the JavaScript parseInt builtin in the decimal case used
by the component: skip leading whitespace, optional sign, then the
leading run of decimal digits; none models NaN when no digit is present.
Hexadecimal prefixes are not modelled. -/
def parseInt (s : String) : Option ℤ :=
  match s.toList.dropWhile (fun c => c.isWhitespace) with
  | '-' :: cs => (digitsVal cs none).map (fun n => -(n : ℤ))
  | '+' :: cs => (digitsVal cs none).map (fun n => (n : ℤ))
  | cs => (digitsVal cs none).map (fun n => (n : ℤ))

/-- Embedding of the stored goal text fallback (src/unnamed/part_001
lines 31-33): getItem result or the default text, where the JavaScript
or-operator also replaces an empty string by the default. -/
def goalTextOrDefault (stored : Option String) : String :=
  match stored with
  | some s => if s = "" then defaultGoalText else s
  | none => defaultGoalText

/-- Embedding of dailyCalorieGoal (src/unnamed/part_001 line 34):
parseInt of the stored text, with NaN collapsed to 0 by the or-operator. -/
def dailyCalorieGoal (stored : Option String) : ℤ :=
  (parseInt (goalTextOrDefault stored)).getD 0

/-! ### Derived display values -/

/-- Embedding of remainingCalories (src/unnamed/part_001 line 67):
plain subtraction, never clamped. -/
def remainingCalories (goal consumed : ℤ) : ℤ := goal - consumed

/-- Embedding of progressPercent (src/unnamed/part_001 line 68):
the consumed fraction of the goal as a percentage, clamped from above
at 100.  Exact rational arithmetic models the computation for positive
goals. -/
def progressPercent (goal consumed : ℤ) : ℚ :=
  min ((consumed : ℚ) / (goal : ℚ) * 100) 100

/-! ### Dark mode flag -/

/-- Embedding of the darkMode useState initializer (src/unnamed/part_001
lines 38-40): true exactly when the stored string equals the text true. -/
def initDarkMode (stored : Option String) : Bool := stored == some trueText

/-- Embedding of the darkMode persist effect (src/unnamed/part_001
lines 71-74): String applied to the boolean. -/
def persistDarkMode (b : Bool) : String := if b then trueText else falseText

/-! ### Application state machine

The event handlers of the component are embedded as state transition
functions.  A media stream is modelled as its list of tracks, each
carrying a live flag; streams that the code no longer references are
collected in the orphaned list so that resource claims about every
track acquired during a trace can be stated.  The boolean parameters
videoMounted / canvasMounted / ctxOk stand for the nullable handles
videoRef.current, canvasRef.current and canvas.getContext at the moment
the handler runs. -/

/-- Image payload held in the image state variable: either a JPEG data
URL produced from a canvas of the recorded dimensions, or the raw data
URL of an uploaded file. -/
inductive ImagePayload where
  | jpeg (w h : ℕ)
  | fileData (contents : String)
  deriving DecidableEq, Repr

/-- Analysis result shape from geminiService (interface NutritionAnalysis);
only totalCalories and summary are relevant to the ledger, the item list
and optional advice text are omitted as unused by it. -/
structure NutritionAnalysis where
  totalCalories : ℤ
  summary : String
  deriving DecidableEq, Repr

/-- State of the component relevant to the capture pipeline and the
ledger: the React state variables image, analysis, mealLogged,
consumedCalories, cameraActive, the displayed error flag, the stream
attached to the video element, the streams no longer referenced, and
the persisted calorieLog cell. -/
structure AppState where
  image : Option ImagePayload
  analysis : Option NutritionAnalysis
  mealLogged : Bool
  consumedCalories : ℤ
  cameraActive : Bool
  errorShown : Bool
  srcObject : Option (List Bool)
  orphaned : List (List Bool)
  storedLog : CalorieLogCell
  deriving DecidableEq, Repr

/-- Result of a track.stop() loop over a stream: every track is dead. -/
def stopTracks (ts : List Bool) : List Bool := ts.map (fun _ => false)

/-- A stream whose tracks are all dead. -/
def streamStopped (ts : List Bool) : Bool := ts.all (fun t => !t)

/-- No media track of the trace is live: nothing is attached to the
video element and every no longer referenced stream is fully stopped. -/
def noDanglingTrack (s : AppState) : Bool :=
  s.srcObject.isNone && s.orphaned.all streamStopped

/-- Embedding of stopCamera (src/unnamed/part_001 lines 96-102): when the
video element is mounted and holds a stream, stop all its tracks and
detach it; in every case clear the cameraActive flag. -/
def stopCamera (videoMounted : Bool) (s : AppState) : AppState :=
  if videoMounted then
    match s.srcObject with
    | some ts =>
        { s with srcObject := none,
                 orphaned := stopTracks ts :: s.orphaned,
                 cameraActive := false }
    | none => { s with cameraActive := false }
  else { s with cameraActive := false }

/-- Outcome of the awaited getUserMedia call. -/
inductive CamResult where
  | granted (tracks : List Bool)
  | denied
  deriving DecidableEq, Repr

/-- Embedding of startCamera (src/unnamed/part_001 lines 84-94): clear
the error, set cameraActive, await the stream; on success attach it to
the video element when that element is mounted, otherwise the fresh
stream is left unreferenced with its tracks live; on failure show the
error message and clear cameraActive. -/
def startCamera (videoMounted : Bool) (r : CamResult) (s : AppState) : AppState :=
  match r with
  | .denied => { s with errorShown := true, cameraActive := false }
  | .granted ts =>
      if videoMounted then
        { s with errorShown := false, cameraActive := true,
                 srcObject := some ts,
                 orphaned := match s.srcObject with
                   | some old => old :: s.orphaned
                   | none => s.orphaned }
      else
        { s with errorShown := false, cameraActive := true,
                 orphaned := ts :: s.orphaned }

/-- Embedding of the calorieLog persist effect (src/unnamed/part_001
lines 80-82): write a record holding the key for today and the current
consumedCalories value.  The effect is modelled as running after every
mutation of consumedCalories and once on mount; React additionally
skips a set of an identical value, which within a single day never
changes the stored cell. -/
def persistLog (today : String) (s : AppState) : AppState :=
  { s with storedLog := .record (.jStr today) (.jNum s.consumedCalories) }

/-- Embedding of handleLogMeal (src/unnamed/part_001 lines 148-153)
followed by the persist effect: when an analysis is present and the meal
was not logged yet, add its totalCalories to consumedCalories and set the
mealLogged flag; otherwise do nothing. -/
def handleLogMeal (today : String) (s : AppState) : AppState :=
  match s.analysis with
  | some a =>
      if s.mealLogged then s
      else persistLog today
        { s with consumedCalories := s.consumedCalories + a.totalCalories,
                 mealLogged := true }
  | none => s

/-- Embedding of the Reset Day button handler (src/unnamed/part_001
lines 271-275): set consumedCalories to 0, followed by the persist
effect. -/
def resetToday (today : String) (s : AppState) : AppState :=
  persistLog today { s with consumedCalories := 0 }

/-- Embedding of handleAnalyze on its success path (src/unnamed/part_001
lines 137-147): clear the error and the mealLogged flag, store the
analysis result. -/
def handleAnalyzeSuccess (a : NutritionAnalysis) (s : AppState) : AppState :=
  { s with errorShown := false, mealLogged := false, analysis := some a }

/-- Embedding of handleFileUpload (src/unnamed/part_001 lines 124-131):
when a file was selected, the reader load end callback sets the image to
the file data, clears the analysis and clears the mealLogged flag. -/
def handleFileUpload (file : Option String) (s : AppState) : AppState :=
  match file with
  | some contents =>
      { s with image := some (.fileData contents),
               analysis := none, mealLogged := false }
  | none => s

/-- Embedding of captureImage (src/unnamed/part_001 lines 104-122): when
both the video and the canvas element are mounted, size the canvas by
scaleDims applied to the native video dimensions; when a drawing context
is available, draw the frame, store the encoded image and stop the
camera; on every other path return unchanged.  The mealLogged flag and
the analysis are not touched on any path. -/
def captureImage (videoMounted canvasMounted ctxOk : Bool) (vw vh : ℕ)
    (s : AppState) : AppState :=
  if videoMounted && canvasMounted then
    let dims := scaleDims vw vh
    if ctxOk then
      stopCamera videoMounted { s with image := some (.jpeg dims.1 dims.2) }
    else s
  else s

/-- Embedding of the component mount for the ledger: consumedCalories is
initialized from loadConsumedCalories applied to the stored cell (read
through the numeric view, exact on every cell whose calories field is a
JSON number), the remaining state variables start empty, and the mount
run of the persist effect rebinds the stored cell to the key for today. -/
def initApp (today : String) (cell : CalorieLogCell) : AppState :=
  persistLog today
    { image := none, analysis := none, mealLogged := false,
      consumedCalories := asNumber (loadConsumedCalories today cell),
      cameraActive := false, errorShown := false,
      srcObject := none, orphaned := [], storedLog := cell }

/-! ### Concrete scenario states used by witnesses and counterexamples -/

/-- Analysis result worth 300 calories. -/
def analysis300 : NutritionAnalysis := { totalCalories := 300, summary := mealSummaryText }

/-- Analysis result worth 150 calories. -/
def analysis150 : NutritionAnalysis := { totalCalories := 150, summary := mealSummaryText }

/-- Analysis result worth 600 calories. -/
def analysis600 : NutritionAnalysis := { totalCalories := 600, summary := mealSummaryText }

/-- Analysis result worth 900 calories. -/
def analysis900 : NutritionAnalysis := { totalCalories := 900, summary := mealSummaryText }

/-- Analysis result worth 700 calories. -/
def analysis700 : NutritionAnalysis := { totalCalories := 700, summary := mealSummaryText }

/-- Fresh session on Tuesday with an empty store. -/
def freshTueState : AppState := initApp dayTue .absent

/-- Fresh Tuesday session right after a successful analysis worth 300. -/
def freshAnalysisState : AppState := handleAnalyzeSuccess analysis300 freshTueState

/-! ### Helper lemmas -/

theorem streamStopped_stopTracks (ts : List Bool) :
    streamStopped (stopTracks ts) = true := by
  simp [streamStopped, stopTracks, List.all_eq_true]

/-! ### Claim theorems -/

/-- C1: for every ledger state with stored total T under day key D1, a
read performed on a different day D2 returns 0, and logging an amount A
on D2 (after the mount on D2 that performs the read) rebinds the stored
record to D2 with total exactly A: the stale total T is not summed in. -/
theorem c1_stale_day_rollover (d1 d2 : String) (tPrev : ℤ)
    (a : NutritionAnalysis) (hne : d1 ≠ d2) :
    loadConsumedCalories d2 (.record (.jStr d1) (.jNum tPrev)) = .jNum 0
    ∧ (initApp d2 (.record (.jStr d1) (.jNum tPrev))).consumedCalories = 0
    ∧ (handleLogMeal d2 (handleAnalyzeSuccess a
        (initApp d2 (.record (.jStr d1) (.jNum tPrev))))).consumedCalories
        = a.totalCalories
    ∧ (handleLogMeal d2 (handleAnalyzeSuccess a
        (initApp d2 (.record (.jStr d1) (.jNum tPrev))))).storedLog
        = .record (.jStr d2) (.jNum a.totalCalories) := by
  refine ⟨?_, ?_, ?_, ?_⟩ <;>
    simp [loadConsumedCalories, initApp, handleLogMeal, handleAnalyzeSuccess,
      persistLog, asNumber, hne]

/-- Witness for C1 at D1 = Monday, D2 = Tuesday, T = 500, A = 300. -/
theorem c1_stale_day_rollover_witness :
    loadConsumedCalories dayTue (.record (.jStr dayMon) (.jNum 500)) = .jNum 0
    ∧ (initApp dayTue (.record (.jStr dayMon) (.jNum 500))).consumedCalories = 0
    ∧ (handleLogMeal dayTue (handleAnalyzeSuccess analysis300
        (initApp dayTue (.record (.jStr dayMon) (.jNum 500))))).consumedCalories
        = analysis300.totalCalories
    ∧ (handleLogMeal dayTue (handleAnalyzeSuccess analysis300
        (initApp dayTue (.record (.jStr dayMon) (.jNum 500))))).storedLog
        = .record (.jStr dayTue) (.jNum analysis300.totalCalories) :=
  c1_stale_day_rollover dayMon dayTue 500 analysis300 (by decide)

/-- C5: computeRemaining is plain subtraction with no clamping, so goal
2000 with total 2500 gives -500, while the displayed progress fraction
is clamped to a maximum of 100 percent. -/
theorem c5_remaining_unclamped_progress_clamped (goal consumed : ℤ)
    (hg : 0 < goal) :
    remainingCalories goal consumed = goal - consumed
    ∧ remainingCalories 2000 2500 = -500
    ∧ progressPercent goal consumed ≤ 100 :=
  ⟨rfl, by decide, min_le_right _ _⟩

/-- Witness for C5 at goal 2000, consumed 2500. -/
theorem c5_remaining_unclamped_progress_clamped_witness :
    remainingCalories 2000 2500 = 2000 - 2500
    ∧ remainingCalories 2000 2500 = -500
    ∧ progressPercent 2000 2500 ≤ 100 :=
  c5_remaining_unclamped_progress_clamped 2000 2500 (by decide)

/-- C6: resetToday sets the effective total to 0 and persists a record
of 0 under the key for today, regardless of the prior state, and one
subsequent logMeal of a 150 calorie analysis yields exactly 150. -/
theorem c6_reset_day (today : String) (s : AppState) (a : NutritionAnalysis)
    (h150 : a.totalCalories = 150) :
    (resetToday today s).consumedCalories = 0
    ∧ (resetToday today s).storedLog = .record (.jStr today) (.jNum 0)
    ∧ (handleLogMeal today (handleAnalyzeSuccess a
        (resetToday today s))).consumedCalories = 150 := by
  refine ⟨rfl, rfl, ?_⟩
  simp [resetToday, handleLogMeal, handleAnalyzeSuccess, persistLog, h150]

/-- Witness for C6 starting from a Tuesday session that already logged
300 calories. -/
theorem c6_reset_day_witness :
    (resetToday dayTue (handleLogMeal dayTue freshAnalysisState)).consumedCalories = 0
    ∧ (resetToday dayTue (handleLogMeal dayTue freshAnalysisState)).storedLog
        = .record (.jStr dayTue) (.jNum 0)
    ∧ (handleLogMeal dayTue (handleAnalyzeSuccess analysis150
        (resetToday dayTue (handleLogMeal dayTue freshAnalysisState)))).consumedCalories
        = 150 :=
  c6_reset_day dayTue (handleLogMeal dayTue freshAnalysisState) analysis150 rfl

/-- C7: within a single day successive logMeal calls accumulate by
addition: from an effective total of 0, logging 600 then 900 gives a
read total of 1500 and remaining 500 against a 2000 goal; a further 700
gives a read total of 2200 and remaining -200. -/
theorem c7_same_day_accumulation (today : String) (s : AppState)
    (a b c : NutritionAnalysis) (h0 : s.consumedCalories = 0)
    (ha : a.totalCalories = 600) (hb : b.totalCalories = 900)
    (hc : c.totalCalories = 700) :
    (handleLogMeal today (handleAnalyzeSuccess b (handleLogMeal today
        (handleAnalyzeSuccess a s)))).consumedCalories = 1500
    ∧ loadConsumedCalories today (handleLogMeal today (handleAnalyzeSuccess b
        (handleLogMeal today (handleAnalyzeSuccess a s)))).storedLog = .jNum 1500
    ∧ remainingCalories 2000 (handleLogMeal today (handleAnalyzeSuccess b
        (handleLogMeal today (handleAnalyzeSuccess a s)))).consumedCalories = 500
    ∧ (handleLogMeal today (handleAnalyzeSuccess c (handleLogMeal today
        (handleAnalyzeSuccess b (handleLogMeal today
        (handleAnalyzeSuccess a s)))))).consumedCalories = 2200
    ∧ loadConsumedCalories today (handleLogMeal today (handleAnalyzeSuccess c
        (handleLogMeal today (handleAnalyzeSuccess b (handleLogMeal today
        (handleAnalyzeSuccess a s)))))).storedLog = .jNum 2200
    ∧ remainingCalories 2000 (handleLogMeal today (handleAnalyzeSuccess c
        (handleLogMeal today (handleAnalyzeSuccess b (handleLogMeal today
        (handleAnalyzeSuccess a s)))))).consumedCalories = -200 := by
  refine ⟨?_, ?_, ?_, ?_, ?_, ?_⟩ <;>
    simp [handleLogMeal, handleAnalyzeSuccess, persistLog, loadConsumedCalories,
      remainingCalories, h0, ha, hb, hc]

/-- Witness for C7 from a fresh Tuesday session with an empty store. -/
theorem c7_same_day_accumulation_witness :
    (handleLogMeal dayTue (handleAnalyzeSuccess analysis900 (handleLogMeal dayTue
        (handleAnalyzeSuccess analysis600 freshTueState)))).consumedCalories = 1500
    ∧ loadConsumedCalories dayTue (handleLogMeal dayTue (handleAnalyzeSuccess analysis900
        (handleLogMeal dayTue (handleAnalyzeSuccess analysis600 freshTueState)))).storedLog
        = .jNum 1500
    ∧ remainingCalories 2000 (handleLogMeal dayTue (handleAnalyzeSuccess analysis900
        (handleLogMeal dayTue (handleAnalyzeSuccess analysis600 freshTueState)))).consumedCalories
        = 500
    ∧ (handleLogMeal dayTue (handleAnalyzeSuccess analysis700 (handleLogMeal dayTue
        (handleAnalyzeSuccess analysis900 (handleLogMeal dayTue
        (handleAnalyzeSuccess analysis600 freshTueState)))))).consumedCalories = 2200
    ∧ loadConsumedCalories dayTue (handleLogMeal dayTue (handleAnalyzeSuccess analysis700
        (handleLogMeal dayTue (handleAnalyzeSuccess analysis900 (handleLogMeal dayTue
        (handleAnalyzeSuccess analysis600 freshTueState)))))).storedLog = .jNum 2200
    ∧ remainingCalories 2000 (handleLogMeal dayTue (handleAnalyzeSuccess analysis700
        (handleLogMeal dayTue (handleAnalyzeSuccess analysis900 (handleLogMeal dayTue
        (handleAnalyzeSuccess analysis600 freshTueState)))))).consumedCalories = -200 :=
  c7_same_day_accumulation dayTue freshTueState analysis600 analysis900 analysis700
    rfl rfl rfl rfl

/-- C10: the dark mode flag round-trips through persistence: persisting
a boolean as the text true or false and initializing from storage yields
the boolean again, and an absent or unrecognized stored value
initializes the flag to false. -/
theorem c10_dark_mode_roundtrip :
    (∀ b : Bool, initDarkMode (some (persistDarkMode b)) = b)
    ∧ initDarkMode none = false
    ∧ ∀ s : String, s ≠ trueText → initDarkMode (some s) = false := by
  refine ⟨fun b => ?_, rfl, fun s hs => ?_⟩
  · cases b <;> rfl
  · simp [initDarkMode, hs]

/-- Witness for C10 at the stored values true and an unrecognized text. -/
theorem c10_dark_mode_roundtrip_witness :
    initDarkMode (some (persistDarkMode true)) = true
    ∧ initDarkMode (some unknownFlagText) = false :=
  ⟨c10_dark_mode_roundtrip.1 true,
   c10_dark_mode_roundtrip.2.2 unknownFlagText (by decide)⟩

/-- C8 counterexample: a parseable stored record whose date equals the
key for today but whose calories field is a non numeric JSON value is
malformed persisted ledger data, yet the read does not return 0: the
stored garbage value is passed through unvalidated. -/
theorem c8_counterexample :
    loadConsumedCalories dayTue (.record (.jStr dayTue) (.jStr badCaloriesText))
      ≠ .jNum 0
    ∧ loadConsumedCalories dayTue (.record (.jStr dayTue) (.jStr badCaloriesText))
      = .jStr badCaloriesText := by
  refine ⟨?_, ?_⟩ <;> simp [loadConsumedCalories]

/-- C8 amended: the read never throws and returns 0 when no entry
exists, when the cell is unparsable, and when the record date differs
from the key for today; a record dated today has its calories field
returned as stored, without validation.  A malformed goal text parses
to 0 while an absent goal falls back to the default 2000. -/
theorem c8_read_total_defaults (today : String) (d c : Json) (g : String)
    (hd : d ≠ .jStr today) (hg : parseInt g = none) (hge : g ≠ "") :
    loadConsumedCalories today .absent = .jNum 0
    ∧ loadConsumedCalories today .unparsable = .jNum 0
    ∧ loadConsumedCalories today (.record d c) = .jNum 0
    ∧ loadConsumedCalories today (.record (.jStr today) c) = c
    ∧ dailyCalorieGoal none = 2000
    ∧ dailyCalorieGoal (some g) = 0 := by
  refine ⟨rfl, rfl, ?_, ?_, ?_, ?_⟩
  · simp [loadConsumedCalories, hd]
  · simp [loadConsumedCalories]
  · rfl
  · simp [dailyCalorieGoal, goalTextOrDefault, hge, hg]

/-- Witness for C8 amended: a mismatched date, an arbitrary calories
value and a non numeric goal text. -/
theorem c8_read_total_defaults_witness :
    loadConsumedCalories dayTue .absent = .jNum 0
    ∧ loadConsumedCalories dayTue .unparsable = .jNum 0
    ∧ loadConsumedCalories dayTue (.record (.jStr dayMon) (.jNum 500)) = .jNum 0
    ∧ loadConsumedCalories dayTue (.record (.jStr dayTue) (.jNum 500)) = .jNum 500
    ∧ dailyCalorieGoal none = 2000
    ∧ dailyCalorieGoal (some badCaloriesText) = 0 :=
  c8_read_total_defaults dayTue (.jStr dayMon) (.jNum 500) badCaloriesText
    (by decide) (by decide) (by decide)

/-- C9: releasing the stream is idempotent: with no stream attached the
call only clears the cameraActive flag and raises no error, a second
call in succession changes nothing, and after a call no stream is
attached and (when earlier detached streams were stopped) no track is
live. -/
theorem c9_stop_camera_idempotent (s : AppState) :
    stopCamera true (stopCamera true s) = stopCamera true s
    ∧ (s.srcObject = none → stopCamera true s = { s with cameraActive := false })
    ∧ (stopCamera true s).srcObject = none
    ∧ (s.orphaned.all streamStopped = true →
        noDanglingTrack (stopCamera true s) = true) := by
  obtain ⟨img, an, ml, cc, ca, er, so, orp, sl⟩ := s
  cases so <;>
    simp [stopCamera, noDanglingTrack, streamStopped_stopTracks]

/-- Witness for C9 on a session holding one live track. -/
theorem c9_stop_camera_idempotent_witness :
    stopCamera true (stopCamera true (startCamera true (.granted [true]) freshTueState))
      = stopCamera true (startCamera true (.granted [true]) freshTueState)
    ∧ (stopCamera true (startCamera true (.granted [true]) freshTueState)).srcObject = none
    ∧ noDanglingTrack (stopCamera true
        (startCamera true (.granted [true]) freshTueState)) = true := by
  have h := c9_stop_camera_idempotent (startCamera true (.granted [true]) freshTueState)
  exact ⟨h.1, h.2.2.1, h.2.2.2 rfl⟩

/-- C4 counterexample: when the awaited camera stream resolves after the
video element is gone (for example because the user navigated away while
the permission prompt was open), startCamera leaves the fresh stream
unreferenced with its track still live, so an exit path of the capture
pipeline leaves an active media track behind. -/
theorem c4_counterexample :
    noDanglingTrack freshTueState = true
    ∧ noDanglingTrack (startCamera false (.granted [true]) freshTueState) = false := by
  refine ⟨rfl, rfl⟩

/-- C4 amended: on the normal path, with the video and canvas elements
mounted and a 2d context available, captureImage stores the scaled image
and terminates the stream, leaving no live track and no attached stream;
stopCamera likewise releases everything.  The guarantee does not extend
to the paths where the stream resolves after the video element is gone
or the drawing context is unavailable. -/
theorem c4_capture_releases_stream (s : AppState) (vw vh : ℕ)
    (horph : s.orphaned.all streamStopped = true) :
    noDanglingTrack (captureImage true true true vw vh s) = true
    ∧ (captureImage true true true vw vh s).cameraActive = false
    ∧ noDanglingTrack (stopCamera true s) = true := by
  obtain ⟨img, an, ml, cc, ca, er, so, orp, sl⟩ := s
  cases so <;>
    simp_all [captureImage, stopCamera, noDanglingTrack, streamStopped_stopTracks]

/-- Witness for C4 amended: capturing a 2000 by 1500 frame from a
session with one attached live track. -/
theorem c4_capture_releases_stream_witness :
    noDanglingTrack (captureImage true true true 2000 1500
      (startCamera true (.granted [true]) freshTueState)) = true
    ∧ (captureImage true true true 2000 1500
      (startCamera true (.granted [true]) freshTueState)).cameraActive = false
    ∧ noDanglingTrack (stopCamera true
      (startCamera true (.granted [true]) freshTueState)) = true :=
  c4_capture_releases_stream (startCamera true (.granted [true]) freshTueState)
    2000 1500 rfl

/-- State of a Tuesday session where the 300 calorie analysis has been
logged and the camera is running again with one live track. -/
def loggedCameraState : AppState :=
  startCamera true (.granted [true]) (handleLogMeal dayTue freshAnalysisState)

/-- C3 counterexample: capturing a new image from the camera does not
reset the already-logged flag: from a state with the flag set, the
capture produces a new image while the flag stays true, contradicting
that the flag is reset whenever a new image is captured. -/
theorem c3_counterexample :
    loggedCameraState.mealLogged = true
    ∧ (captureImage true true true 800 600 loggedCameraState).image
        ≠ loggedCameraState.image
    ∧ (captureImage true true true 800 600 loggedCameraState).mealLogged = true := by
  refine ⟨rfl, ?_, rfl⟩
  decide

/-- C3 amended: logging the same analysis twice with no intervening
event increases the stored total only once, guarded by the boolean
mealLogged flag; the flag is reset whenever a new image is uploaded and
whenever a new analysis completes, but not when a new image is captured
from the camera. -/
theorem c3_log_meal_at_most_once (today : String) (s : AppState)
    (a : NutritionAnalysis) (ha : s.analysis = some a)
    (hm : s.mealLogged = false) :
    (handleLogMeal today s).consumedCalories
      = s.consumedCalories + a.totalCalories
    ∧ handleLogMeal today (handleLogMeal today s) = handleLogMeal today s
    ∧ (∀ f s2, (handleFileUpload (some f) s2).mealLogged = false)
    ∧ (∀ a2 s2, (handleAnalyzeSuccess a2 s2).mealLogged = false) := by
  refine ⟨?_, ?_, fun f s2 => rfl, fun a2 s2 => rfl⟩ <;>
    simp [handleLogMeal, handleAnalyzeSuccess, handleFileUpload, persistLog, ha, hm]

/-- Witness for C3 amended: logging the 300 calorie analysis twice in a
fresh Tuesday session leaves the total at 300, not 600. -/
theorem c3_log_meal_at_most_once_witness :
    (handleLogMeal dayTue freshAnalysisState).consumedCalories
      = freshAnalysisState.consumedCalories + analysis300.totalCalories
    ∧ handleLogMeal dayTue (handleLogMeal dayTue freshAnalysisState)
      = handleLogMeal dayTue freshAnalysisState
    ∧ (handleLogMeal dayTue freshAnalysisState).consumedCalories = 300 := by
  have h := c3_log_meal_at_most_once dayTue freshAnalysisState analysis300 rfl rfl
  exact ⟨h.1, h.2.1, by rw [h.1]; decide⟩

/-- C2: for all positive native frame dimensions, the scaled output fits
in the 1024 bound, preserves the aspect ratio within rounding (the cross
products differ by less than the larger native side, the slack of one
truncation step), and is unchanged whenever both sides already fit. -/
theorem c2_capture_scaling (w h : ℕ) (hw : 0 < w) (hh : 0 < h) :
    max (scaleDims w h).1 (scaleDims w h).2 ≤ maxDim
    ∧ ((h : ℤ) * (scaleDims w h).1 - (w : ℤ) * (scaleDims w h).2).natAbs < max w h
    ∧ (max w h ≤ maxDim → scaleDims w h = (w, h)) := by
  simp only [scaleDims, maxDim]
  split_ifs with h1 h2 h3
  · -- landscape frame wider than the bound
    dsimp only
    have hq : h * 1024 / w ≤ 1024 := by
      calc h * 1024 / w ≤ w * 1024 / w :=
            Nat.div_le_div_right (Nat.mul_le_mul_right _ h1.le)
        _ = 1024 := Nat.mul_div_cancel_left 1024 hw
    refine ⟨max_le (by norm_num) hq, ?_,
      fun hC => absurd (le_trans (le_max_left w h) hC) (by omega)⟩
    push_cast
    have e1 : (h : ℤ) * 1024 - (w : ℤ) * ((h : ℤ) * 1024 / (w : ℤ))
        = (h : ℤ) * 1024 % (w : ℤ) := by
      rw [Int.emod_def]
    rw [e1]
    have hwz : (0 : ℤ) < (w : ℤ) := by exact_mod_cast hw
    have e2 := Int.emod_lt_of_pos ((h : ℤ) * 1024) hwz
    have e3 := Int.emod_nonneg ((h : ℤ) * 1024) (ne_of_gt hwz)
    have hr : ((h : ℤ) * 1024 % (w : ℤ)).natAbs < w := by omega
    exact lt_of_lt_of_le hr (le_max_left w h)
  · -- landscape frame already within the bound
    dsimp only
    refine ⟨max_le (by omega) (by omega), ?_, fun _ => rfl⟩
    rw [show (h : ℤ) * (w : ℤ) - (w : ℤ) * (h : ℤ) = 0 by ring]
    simpa using lt_of_lt_of_le hw (le_max_left w h)
  · -- portrait frame taller than the bound
    dsimp only
    have hwh : w ≤ h := le_of_not_lt h1
    have hq : w * 1024 / h ≤ 1024 := by
      calc w * 1024 / h ≤ h * 1024 / h :=
            Nat.div_le_div_right (Nat.mul_le_mul_right _ hwh)
        _ = 1024 := Nat.mul_div_cancel_left 1024 hh
    refine ⟨max_le hq (by norm_num), ?_,
      fun hC => absurd (le_trans (le_max_right w h) hC) (by omega)⟩
    push_cast
    have e1 : (h : ℤ) * ((w : ℤ) * 1024 / (h : ℤ)) - (w : ℤ) * 1024
        = -((w : ℤ) * 1024 % (h : ℤ)) := by
      rw [Int.emod_def]; ring
    rw [e1]
    have hhz : (0 : ℤ) < (h : ℤ) := by exact_mod_cast hh
    have e2 := Int.emod_lt_of_pos ((w : ℤ) * 1024) hhz
    have e3 := Int.emod_nonneg ((w : ℤ) * 1024) (ne_of_gt hhz)
    have hr : (-((w : ℤ) * 1024 % (h : ℤ))).natAbs < h := by omega
    exact lt_of_lt_of_le hr (le_max_right w h)
  · -- portrait frame already within the bound
    dsimp only
    refine ⟨max_le (by omega) (by omega), ?_, fun _ => rfl⟩
    rw [show (h : ℤ) * (w : ℤ) - (w : ℤ) * (h : ℤ) = 0 by ring]
    simpa using lt_of_lt_of_le hw (le_max_left w h)

/-- Witness for C2: a 2000 by 1500 frame scales to 1024 by 768. -/
theorem c2_capture_scaling_witness :
    max (scaleDims 2000 1500).1 (scaleDims 2000 1500).2 ≤ maxDim
    ∧ ((1500 : ℤ) * (scaleDims 2000 1500).1
        - (2000 : ℤ) * (scaleDims 2000 1500).2).natAbs < max 2000 1500
    ∧ (max 2000 1500 ≤ maxDim → scaleDims 2000 1500 = (2000, 1500)) :=
  c2_capture_scaling 2000 1500 (by decide) (by decide)

end CalorieSnap
